import Mathlib

/-!
Verification of the bootstrap-and-dispatch core of the `triangle-from-scratch`
repository, as a shallow embedding in Lean 4.

Sources embedded here:
* `crates/win32/src/str_util.rs` — `break_off_code_point`,
  `count_utf16_code_units`, `wide_null`;
* `src/win32/mod.rs` — `wgl_get_proc_address`,
  `do_wgl_choose_pixel_format_arb`, `do_wgl_create_context_attribs_arb`,
  `get_wgl_basics`, `get_window_userdata`, `set_window_userdata`;
* `src/main.rs` — the message dispatch loop of `main` and `window_procedure`.

Machine integers are modelled as `Nat`/`Int` (all the arithmetic in scope stays
in range); OS and driver calls are modelled by explicit environment records
holding each call's outcome, and the calls a function performs are recorded in
an explicit event trace so that statements such as "no OS call is made" or
"each resource is released exactly once, in reverse order" are expressible.
-/

/-! ## UTF-8 / UTF-16 string utilities (`crates/win32/src/str_util.rs`) -/

/-- Embeds `break_off_code_point` (`crates/win32/src/str_util.rs`, lines
31–72).  Bytes (`u8`) are modelled as `Nat`.  The Rust slice patterns are
tried in source order: one-byte lead, two-byte lead, three-byte lead,
four-byte lead, empty slice, then the catch-all arm that pulls off one byte
and yields U+FFFD (`0xFFFD`).  A multi-byte lead whose continuation bytes are
missing falls through to the catch-all arm. -/
def break_off_code_point : List Nat → Option (Nat × List Nat)
  | [] => none
  | a :: rest =>
    if a ≤ 0x7F then
      -- [a @ 0b0000_0000..=0b0111_1111, rest @ ..]
      some (a, rest)
    else if 0xC0 ≤ a ∧ a ≤ 0xDF then
      match rest with
      | b :: rest2 => some (((a &&& 0x1F) <<< 6) ||| (b &&& 0x3F), rest2)
      | [] => some (0xFFFD, rest)
    else if 0xE0 ≤ a ∧ a ≤ 0xEF then
      match rest with
      | b :: c :: rest2 =>
          some (((a &&& 0x0F) <<< 12) ||| ((b &&& 0x3F) <<< 6) ||| (c &&& 0x3F), rest2)
      | _ => some (0xFFFD, rest)
    else if 0xF0 ≤ a ∧ a ≤ 0xF7 then
      match rest with
      | b :: c :: d :: rest2 =>
          some (((a &&& 0x07) <<< 18) ||| ((b &&& 0x3F) <<< 12) |||
                ((c &&& 0x3F) <<< 6) ||| (d &&& 0x3F), rest2)
      | _ => some (0xFFFD, rest)
    else
      some (0xFFFD, rest)

theorem break_off_code_point_length {l rest : List Nat} {u : Nat}
    (h : break_off_code_point l = some (u, rest)) : rest.length < l.length := by
  match l with
  | [] => simp [break_off_code_point] at h
  | a :: tail =>
    simp only [break_off_code_point] at h
    split at h
    · cases h; simp only [List.length_cons, List.length_nil]; omega
    · split at h
      · match tail with
        | [] => cases h; simp only [List.length_cons, List.length_nil]; omega
        | b :: t2 => cases h; simp only [List.length_cons, List.length_nil]; omega
      · split at h
        · match tail with
          | [] => cases h; simp only [List.length_cons, List.length_nil]; omega
          | [b] => cases h; simp only [List.length_cons, List.length_nil]; omega
          | b :: c :: t2 => cases h; simp only [List.length_cons, List.length_nil]; omega
        · split at h
          · match tail with
            | [] => cases h; simp only [List.length_cons, List.length_nil]; omega
            | [b] => cases h; simp only [List.length_cons, List.length_nil]; omega
            | [b, c] => cases h; simp only [List.length_cons, List.length_nil]; omega
            | b :: c :: d :: t2 =>
              cases h; simp only [List.length_cons, List.length_nil]; omega
          · cases h; simp only [List.length_cons, List.length_nil]; omega

/-- Embeds `count_utf16_code_units` (`crates/win32/src/str_util.rs`, lines
75–83): repeatedly breaks one code point off the byte buffer, adding 1 for
each code point at or below `0xFFFF` and 2 for each code point above it. -/
def count_utf16_code_units (bytes : List Nat) : Nat :=
  match h : break_off_code_point bytes with
  | some (u, rest) => (if u ≤ 0xFFFF then 1 else 2) + count_utf16_code_units rest
  | none => 0
termination_by bytes.length
decreasing_by exact break_off_code_point_length h

/-- A Unicode scalar value, as guaranteed by a Rust `&str` (valid UTF-8): any
code point outside the surrogate range `0xD800..=0xDFFF` and below
`0x110000`. -/
def ValidScalar (v : Nat) : Prop := v < 0xD800 ∨ (0xDFFF < v ∧ v < 0x110000)

instance (v : Nat) : Decidable (ValidScalar v) := by
  unfold ValidScalar; infer_instance

/-- The UTF-8 encoding of one Unicode scalar value, as produced by the Rust
standard library (`char::encode_utf8` / `str::as_bytes`): the reference
encoder the repository's byte-level code is checked against. -/
def utf8EncodeScalar (v : Nat) : List Nat :=
  if v < 0x80 then [v]
  else if v < 0x800 then [0xC0 + v / 64, 0x80 + v % 64]
  else if v < 0x10000 then [0xE0 + v / 4096, 0x80 + v / 64 % 64, 0x80 + v % 64]
  else [0xF0 + v / 0x40000, 0x80 + v / 4096 % 64, 0x80 + v / 64 % 64, 0x80 + v % 64]

/-- The UTF-8 encoding of a string (a sequence of Unicode scalar values), i.e.
what `s.as_bytes()` yields for a Rust `&str`. -/
def utf8Encode (s : List Nat) : List Nat := s.flatMap utf8EncodeScalar

/-- The UTF-16 encoding of one Unicode scalar value, as produced by the Rust
standard library (`char::encode_utf16` / `str::encode_utf16`): one code unit
below `0x10000`, otherwise a surrogate pair. -/
def utf16EncodeScalar (v : Nat) : List Nat :=
  if v < 0x10000 then [v]
  else
    let code := v - 0x10000
    [0xD800 + code / 0x400, 0xDC00 + code % 0x400]

/-- The UTF-16 encoding of a string, i.e. `s.encode_utf16()` collected. -/
def utf16Encode (s : List Nat) : List Nat := s.flatMap utf16EncodeScalar

/-- Embeds `wide_null` (`crates/win32/src/str_util.rs`, lines 2–4):
`s.encode_utf16().chain(Some(0)).collect()`. -/
def wide_null (s : List Nat) : List Nat := utf16Encode s ++ [0]

/-- Disjoint-bit-range `or` is addition: a left operand shifted up by `k` bits
or-ed with a right operand below `2 ^ k` adds the two. -/
theorem lor_add_of_lt (k x y : Nat) (hy : y < 2 ^ k) : (x <<< k) ||| y = x <<< k + y := by
  induction k generalizing x y with
  | zero =>
    interval_cases y
    simp
  | succ k ih =>
    have hdecomp := Nat.bit_decomp y
    have hd2 : y.div2 < 2 ^ k := by
      rw [Nat.div2_val]
      omega
    calc (x <<< (k + 1)) ||| y
        = Nat.bit false (x <<< k) ||| Nat.bit y.bodd y.div2 := by
          rw [hdecomp, Nat.shiftLeft_succ, Nat.bit_val]
          simp
      _ = Nat.bit (false || y.bodd) ((x <<< k) ||| y.div2) := Nat.lor_bit _ _ _ _
      _ = Nat.bit y.bodd (x <<< k + y.div2) := by rw [ih _ _ hd2]; simp
      _ = x <<< (k + 1) + y := by
          rw [Nat.bit_val, Nat.shiftLeft_succ]
          have := Nat.bit_val y.bodd y.div2
          rw [hdecomp] at this
          omega

/-- Multiplicative form of `lor_add_of_lt`. -/
theorem lor_eq_add_of_lt (x y k : Nat) (hy : y < 2 ^ k) :
    (x * 2 ^ k) ||| y = x * 2 ^ k + y := by
  simpa [Nat.shiftLeft_eq] using lor_add_of_lt k x y hy

/-- Decoding inverts encoding: `break_off_code_point` applied to the UTF-8
encoding of a scalar value `v < 0x110000` followed by any tail returns `v`
and the tail. -/
theorem break_off_utf8EncodeScalar (v : Nat) (hv : v < 0x110000) (rest : List Nat) :
    break_off_code_point (utf8EncodeScalar v ++ rest) = some (v, rest) := by
  by_cases h1 : v < 0x80
  · simp [utf8EncodeScalar, break_off_code_point, h1]
    omega
  · by_cases h2 : v < 0x800
    · have hb : (0xC0 + v / 64) &&& 0x1F = v / 64 := by
        rw [show (0x1F : Nat) = 2 ^ 5 - 1 from rfl, Nat.and_pow_two_sub_one_eq_mod]
        omega
      have hc : (0x80 + v % 64) &&& 0x3F = v % 64 := by
        rw [show (0x3F : Nat) = 2 ^ 6 - 1 from rfl, Nat.and_pow_two_sub_one_eq_mod]
        omega
      simp only [utf8EncodeScalar, h1, if_false, h2, if_true, List.cons_append,
        List.nil_append, break_off_code_point]
      rw [if_neg (by omega), if_pos (by omega)]
      rw [hb, hc, Nat.shiftLeft_eq, lor_eq_add_of_lt _ _ 6 (by omega)]
      congr 2
      omega
    · by_cases h3 : v < 0x10000
      · have hb : (0xE0 + v / 4096) &&& 0x0F = v / 4096 := by
          rw [show (0x0F : Nat) = 2 ^ 4 - 1 from rfl, Nat.and_pow_two_sub_one_eq_mod]
          omega
        have hc : (0x80 + v / 64 % 64) &&& 0x3F = v / 64 % 64 := by
          rw [show (0x3F : Nat) = 2 ^ 6 - 1 from rfl, Nat.and_pow_two_sub_one_eq_mod]
          omega
        have hd : (0x80 + v % 64) &&& 0x3F = v % 64 := by
          rw [show (0x3F : Nat) = 2 ^ 6 - 1 from rfl, Nat.and_pow_two_sub_one_eq_mod]
          omega
        simp only [utf8EncodeScalar, h1, if_false, h2, if_false, h3, if_true,
          List.cons_append, List.nil_append, break_off_code_point]
        rw [if_neg (by omega), if_neg (by omega), if_pos (by omega)]
        rw [hb, hc, hd, Nat.shiftLeft_eq, Nat.shiftLeft_eq]
        rw [lor_eq_add_of_lt (v / 4096) (v / 64 % 64 * 2 ^ 6) 12 (by omega)]
        rw [show v / 4096 * 2 ^ 12 + v / 64 % 64 * 2 ^ 6
              = (v / 4096 * 64 + v / 64 % 64) * 2 ^ 6 by ring]
        rw [lor_eq_add_of_lt _ (v % 64) 6 (by omega)]
        congr 2
        omega
      · have hb : (0xF0 + v / 0x40000) &&& 0x07 = v / 0x40000 := by
          rw [show (0x07 : Nat) = 2 ^ 3 - 1 from rfl, Nat.and_pow_two_sub_one_eq_mod]
          omega
        have hc : (0x80 + v / 4096 % 64) &&& 0x3F = v / 4096 % 64 := by
          rw [show (0x3F : Nat) = 2 ^ 6 - 1 from rfl, Nat.and_pow_two_sub_one_eq_mod]
          omega
        have hd : (0x80 + v / 64 % 64) &&& 0x3F = v / 64 % 64 := by
          rw [show (0x3F : Nat) = 2 ^ 6 - 1 from rfl, Nat.and_pow_two_sub_one_eq_mod]
          omega
        have he : (0x80 + v % 64) &&& 0x3F = v % 64 := by
          rw [show (0x3F : Nat) = 2 ^ 6 - 1 from rfl, Nat.and_pow_two_sub_one_eq_mod]
          omega
        simp only [utf8EncodeScalar, h1, if_false, h2, if_false, h3, if_false,
          List.cons_append, List.nil_append, break_off_code_point]
        rw [if_neg (by omega), if_neg (by omega), if_neg (by omega), if_pos (by omega)]
        rw [hb, hc, hd, he, Nat.shiftLeft_eq, Nat.shiftLeft_eq, Nat.shiftLeft_eq]
        rw [lor_eq_add_of_lt (v / 0x40000) (v / 4096 % 64 * 2 ^ 12) 18 (by omega)]
        rw [show v / 0x40000 * 2 ^ 18 + v / 4096 % 64 * 2 ^ 12
              = (v / 0x40000 * 64 + v / 4096 % 64) * 2 ^ 12 by ring]
        rw [lor_eq_add_of_lt _ (v / 64 % 64 * 2 ^ 6) 12 (by omega)]
        rw [show (v / 0x40000 * 64 + v / 4096 % 64) * 2 ^ 12 + v / 64 % 64 * 2 ^ 6
              = ((v / 0x40000 * 64 + v / 4096 % 64) * 64 + v / 64 % 64) * 2 ^ 6 by ring]
        rw [lor_eq_add_of_lt _ (v % 64) 6 (by omega)]
        congr 2
        omega

/-- Unfolding step for `count_utf16_code_units`: the count of an encoded
scalar followed by a tail is the scalar's UTF-16 length plus the count of the
tail. -/
theorem count_utf16_code_units_cons (v : Nat) (hv : v < 0x110000) (tail : List Nat) :
    count_utf16_code_units (utf8EncodeScalar v ++ tail)
      = (if v ≤ 0xFFFF then 1 else 2) + count_utf16_code_units tail := by
  rw [count_utf16_code_units.eq_def]
  have hb := break_off_utf8EncodeScalar v hv tail
  split
  · next u rest h =>
      rw [hb] at h
      cases h
      rfl
  · next h =>
      rw [hb] at h
      cases h

/-- The empty buffer contains zero UTF-16 code units. -/
theorem count_utf16_code_units_nil : count_utf16_code_units [] = 0 := by
  rw [count_utf16_code_units.eq_def]
  rfl

/-- C9: For every valid UTF-8 string (modelled as its sequence of Unicode
scalar values), the const byte-level implementation `count_utf16_code_units`,
built on `break_off_code_point`, returns exactly the number of UTF-16 code
units the standard encoder `s.encode_utf16()` produces; consequently
`wide_null(s)` has length `count_utf16_code_units(s) + 1` and ends in a `0`
terminator. -/
theorem count_utf16_code_units_matches_encode_utf16
    (s : List Nat) (hs : ∀ v ∈ s, ValidScalar v) :
    count_utf16_code_units (utf8Encode s) = (utf16Encode s).length ∧
    (wide_null s).length = count_utf16_code_units (utf8Encode s) + 1 ∧
    (wide_null s).getLast? = some 0 := by
  have hmain : count_utf16_code_units (utf8Encode s) = (utf16Encode s).length := by
    induction s with
    | nil =>
      simp only [utf8Encode, utf16Encode, List.flatMap_nil, List.length_nil]
      exact count_utf16_code_units_nil
    | cons v tl ih =>
      have hv : v < 0x110000 := by
        have := hs v (List.mem_cons_self v tl)
        unfold ValidScalar at this
        omega
      have htl : ∀ w ∈ tl, ValidScalar w := fun w hw => hs w (List.mem_cons_of_mem v hw)
      simp only [utf8Encode, utf16Encode, List.flatMap_cons] at *
      rw [count_utf16_code_units_cons v hv _, ih htl, List.length_append]
      congr 1
      unfold utf16EncodeScalar
      by_cases h16 : v < 0x10000
      · rw [if_pos (by omega), if_pos h16]
        rfl
      · rw [if_neg (by omega), if_neg h16]
        rfl
  refine ⟨hmain, ?_, ?_⟩
  · rw [wide_null, List.length_append, hmain]
    rfl
  · rw [wide_null, List.getLast?_concat]

/-- Witness for C9 at the concrete string "$¢€𐍈" (scalar values
`0x24, 0xA2, 0x20AC, 0x10348`, one of each UTF-8 length). -/
theorem count_utf16_code_units_matches_encode_utf16_witness :
    (∀ v ∈ [0x24, 0xA2, 0x20AC, 0x10348], ValidScalar v) ∧
    (count_utf16_code_units (utf8Encode [0x24, 0xA2, 0x20AC, 0x10348])
        = (utf16Encode [0x24, 0xA2, 0x20AC, 0x10348]).length ∧
      (wide_null [0x24, 0xA2, 0x20AC, 0x10348]).length
        = count_utf16_code_units (utf8Encode [0x24, 0xA2, 0x20AC, 0x10348]) + 1 ∧
      (wide_null [0x24, 0xA2, 0x20AC, 0x10348]).getLast? = some 0) :=
  ⟨by decide, count_utf16_code_units_matches_encode_utf16 _ (by decide)⟩

/-! ## Win32 error values (`src/win32/structs.rs`) -/

/-- Embeds `Win32Error` (`src/win32/structs.rs`, line 338): a wrapper around a
`DWORD` error code. -/
structure Win32Error where
  code : Nat
deriving DecidableEq

instance {ε α : Type} [DecidableEq ε] [DecidableEq α] : DecidableEq (Except ε α)
  | .error e, .error f =>
      if h : e = f then isTrue (by rw [h])
      else isFalse (by intro hh; cases hh; exact h rfl)
  | .error _, .ok _ => isFalse (by intro h; cases h)
  | .ok _, .error _ => isFalse (by intro h; cases h)
  | .ok a, .ok b =>
      if h : a = b then isTrue (by rw [h])
      else isFalse (by intro hh; cases hh; exact h rfl)

/-- The application-reserved error bit, bit 29: the bit the `Display`
implementation in `src/win32/structs.rs` tests (`self.0 & (1 << 29)`) to tell
an application-generated sentinel from a system error code.  This is the value
of the associated constant `Win32Error::APPLICATION_ERROR_BIT` used throughout
`src/win32/mod.rs`. -/
def Win32Error.APPLICATION_ERROR_BIT : Nat := 1 <<< 29

/-- The application-error sentinel `Win32Error(Win32Error::APPLICATION_ERROR_BIT)`. -/
def APP_ERR : Win32Error := ⟨Win32Error.APPLICATION_ERROR_BIT⟩

/-! ## The procedure loader `wgl_get_proc_address` (`src/win32/mod.rs`, lines 893–910) -/

/-- The value of `usize::MAX` on the 64-bit target the crate compiles for. -/
def USIZE_MAX : Nat := 2 ^ 64 - 1

/-- A call the procedure loader may make: the context-specific resolver
(`wglGetProcAddress`) or the module-symbol resolver (`GetProcAddress`).  The
trace of these calls is recorded so that "the loader consults / does not
consult a resolver" is expressible. -/
inductive LoaderCall
  | contextResolver (name : List Nat)
  | moduleResolver (name : List Nat)
deriving DecidableEq

/-- Outcomes of the OS calls `wgl_get_proc_address` may make: the address the
context-specific resolver (`wglGetProcAddress`) returns, and the thread's
last-error value `GetLastError` would report. -/
structure ProcEnv where
  wglGetProcAddress : Nat
  lastError : Nat

/-- Embeds `wgl_get_proc_address` (`src/win32/mod.rs`, lines 893–910): checks
that the name slice ends in a null byte (otherwise the application-error
sentinel is returned with no OS call), calls `wglGetProcAddress`, and maps the
documented failure values `0, 1, 2, 3` and `usize::MAX` to
`Err(get_last_error())`.  Returns the result paired with the trace of resolver
calls made. -/
def wgl_get_proc_address (env : ProcEnv) (func_name : List Nat) :
    Except Win32Error Nat × List LoaderCall :=
  match func_name.getLast? with
  | some 0 =>
      let proc := env.wglGetProcAddress
      let calls := [LoaderCall.contextResolver func_name]
      if proc = 0 ∨ proc = 1 ∨ proc = 2 ∨ proc = 3 ∨ proc = USIZE_MAX then
        (Except.error ⟨env.lastError⟩, calls)
      else
        (Except.ok proc, calls)
  | _ => (Except.error APP_ERR, [])

/-- C4 counterexample: with the context-specific resolver returning the
sentinel address 1 (and the module resolver able to resolve the name, were it
consulted), the loader returns `Err(get_last_error())` and never calls the
module-symbol resolver: it does not fall back. -/
theorem wgl_get_proc_address_no_fallback_counterexample :
    (wgl_get_proc_address ⟨1, 5⟩ [119, 0]).1 = Except.error ⟨5⟩ ∧
    (wgl_get_proc_address ⟨1, 5⟩ [119, 0]).2 = [LoaderCall.contextResolver [119, 0]] ∧
    LoaderCall.moduleResolver [119, 0] ∉ (wgl_get_proc_address ⟨1, 5⟩ [119, 0]).2 := by
  decide

/-- C4 (amended): whenever the context-specific resolver returns one of the
sentinel addresses `0, 1, 2, 3` or `usize::MAX`, `wgl_get_proc_address`
treats the result as a failure, returning `Err(get_last_error())` without
consulting any module-symbol resolver (it performs no fallback); and it never
returns a sentinel value as a successfully resolved address. -/
theorem wgl_get_proc_address_sentinel_is_failure (env : ProcEnv) (name : List Nat)
    (hnull : name.getLast? = some 0) :
    (env.wglGetProcAddress = 0 ∨ env.wglGetProcAddress = 1 ∨ env.wglGetProcAddress = 2 ∨
        env.wglGetProcAddress = 3 ∨ env.wglGetProcAddress = USIZE_MAX →
      (wgl_get_proc_address env name).1 = Except.error ⟨env.lastError⟩ ∧
      ∀ c ∈ (wgl_get_proc_address env name).2, ∃ n, c = LoaderCall.contextResolver n) ∧
    (∀ a, (wgl_get_proc_address env name).1 = Except.ok a →
      a ≠ 0 ∧ a ≠ 1 ∧ a ≠ 2 ∧ a ≠ 3 ∧ a ≠ USIZE_MAX) := by
  unfold wgl_get_proc_address
  rw [hnull]
  constructor
  · intro hsent
    rw [if_pos hsent]
    refine ⟨rfl, ?_⟩
    intro c hc
    simp only [List.mem_singleton] at hc
    exact ⟨name, hc⟩
  · intro a ha
    by_cases hs : env.wglGetProcAddress = 0 ∨ env.wglGetProcAddress = 1 ∨
        env.wglGetProcAddress = 2 ∨ env.wglGetProcAddress = 3 ∨
        env.wglGetProcAddress = USIZE_MAX
    · rw [if_pos hs] at ha
      cases ha
    · rw [if_neg hs] at ha
      cases ha
      push_neg at hs
      exact hs

/-- Witness for C4's amended theorem at a concrete environment and name. -/
theorem wgl_get_proc_address_sentinel_is_failure_witness :
    ([119, 0] : List Nat).getLast? = some 0 ∧
    (((⟨2, 7⟩ : ProcEnv).wglGetProcAddress = 0 ∨ (⟨2, 7⟩ : ProcEnv).wglGetProcAddress = 1 ∨
        (⟨2, 7⟩ : ProcEnv).wglGetProcAddress = 2 ∨ (⟨2, 7⟩ : ProcEnv).wglGetProcAddress = 3 ∨
        (⟨2, 7⟩ : ProcEnv).wglGetProcAddress = USIZE_MAX →
      (wgl_get_proc_address ⟨2, 7⟩ [119, 0]).1 = Except.error ⟨7⟩ ∧
      ∀ c ∈ (wgl_get_proc_address ⟨2, 7⟩ [119, 0]).2,
        ∃ n, c = LoaderCall.contextResolver n) ∧
    (∀ a, (wgl_get_proc_address ⟨2, 7⟩ [119, 0]).1 = Except.ok a →
      a ≠ 0 ∧ a ≠ 1 ∧ a ≠ 2 ∧ a ≠ 3 ∧ a ≠ USIZE_MAX)) :=
  ⟨by decide, wgl_get_proc_address_sentinel_is_failure ⟨2, 7⟩ [119, 0] (by decide)⟩

/-- C7: for every name byte slice that does not end with a null byte,
including the empty slice, `wgl_get_proc_address` returns the distinguished
application-error sentinel and performs no resolver call at all. -/
theorem wgl_get_proc_address_rejects_unterminated (env : ProcEnv) (name : List Nat)
    (h : name.getLast? ≠ some 0) :
    wgl_get_proc_address env name = (Except.error APP_ERR, []) := by
  unfold wgl_get_proc_address
  match hl : name.getLast? with
  | none => rfl
  | some 0 => exact absurd hl h
  | some (n + 1) => rfl

/-- Witness for C7 at the unterminated name `[119]` and the empty name. -/
theorem wgl_get_proc_address_rejects_unterminated_witness :
    ([119] : List Nat).getLast? ≠ some 0 ∧
    wgl_get_proc_address ⟨2, 7⟩ [119] = (Except.error APP_ERR, []) :=
  ⟨by decide, wgl_get_proc_address_rejects_unterminated ⟨2, 7⟩ [119] (by decide)⟩

/-! ## Attribute-list builders (`src/win32/mod.rs`, lines 209–258 and 273–298) -/

/-- Comparison of an IEEE-754 binary32 value against `0.0`, on the value's bit
pattern: `k == 0.0` holds exactly for positive zero (`0x00000000`) and
negative zero (`0x80000000`), i.e. exactly when every bit below the sign bit
is zero.  `FLOAT` values are modelled by their 32-bit patterns. -/
def f32BitsEqZero (bits : Nat) : Bool := bits % 2 ^ 31 = 0

/-- Outcomes of the call `do_wgl_choose_pixel_format_arb` makes through the
`wglChoosePixelFormatARB` pointer: the returned `BOOL` and the values written
through the two out-pointers, plus the thread's last-error value. -/
structure ChoosePFEnv where
  callReturn : Nat
  outFormat : Int
  outFormatCount : Nat
  lastError : Nat

/-- A call through the `wglChoosePixelFormatARB` pointer, recording whether
the int-attribute and float-attribute pointers passed were null. -/
inductive ChoosePFCall
  | callF (iPtrIsNull fPtrIsNull : Bool)
deriving DecidableEq

/-- Embeds `do_wgl_choose_pixel_format_arb` (`src/win32/mod.rs`, lines
209–258).  `fPresent` models whether the nullable function pointer `f` holds a
function.  The int list's last pair must have key `0` and the float list's
last pair must have a key equal to `0.0` (empty lists become null pointers);
otherwise an application-error sentinel is returned early.  If `f` is absent,
`f.ok_or(APP_ERR)?` also errors out.  Returns the result paired with the
trace of calls through `f`. -/
def do_wgl_choose_pixel_format_arb (env : ChoosePFEnv) (fPresent : Bool)
    (int_attrs : List (Int × Int)) (float_attrs : List (Nat × Nat)) :
    Except Win32Error Int × List ChoosePFCall :=
  match (match int_attrs.getLast? with
         | some (k, _v) => if k = 0 then Except.ok false else Except.error APP_ERR
         | none => Except.ok true) with
  | Except.error e => (Except.error e, [])
  | Except.ok iPtrIsNull =>
    match (match float_attrs.getLast? with
           | some (k, _v) =>
              if f32BitsEqZero k then Except.ok false else Except.error APP_ERR
           | none => Except.ok true) with
    | Except.error e => (Except.error e, [])
    | Except.ok fPtrIsNull =>
      if fPresent then
        let calls := [ChoosePFCall.callF iPtrIsNull fPtrIsNull]
        if env.callReturn ≠ 0 ∧ env.outFormatCount = 1 then
          (Except.ok env.outFormat, calls)
        else
          (Except.error ⟨env.lastError⟩, calls)
      else
        (Except.error APP_ERR, [])

/-- Outcome of the call `do_wgl_create_context_attribs_arb` makes through the
`wglCreateContextAttribsARB` pointer: the returned context handle (`0` for
null), plus the thread's last-error value. -/
structure CreateCtxEnv where
  hglrcReturn : Nat
  lastError : Nat

/-- A call through the `wglCreateContextAttribsARB` pointer, recording whether
the attribute pointer passed was null. -/
inductive CreateCtxCall
  | callF (iPtrIsNull : Bool)
deriving DecidableEq

/-- Embeds `do_wgl_create_context_attribs_arb` (`src/win32/mod.rs`, lines
273–298): a non-empty attribute list must end with key `0` (an empty list
becomes a null pointer); otherwise an application-error sentinel is returned
early.  If `f` is absent, `f.ok_or(APP_ERR)?` errors out.  A null returned
context yields `Err(get_last_error())`. -/
def do_wgl_create_context_attribs_arb (env : CreateCtxEnv) (fPresent : Bool)
    (attribList : List (Int × Int)) : Except Win32Error Nat × List CreateCtxCall :=
  match (match attribList.getLast? with
         | some (k, _v) => if k = 0 then Except.ok false else Except.error APP_ERR
         | none => Except.ok true) with
  | Except.error e => (Except.error e, [])
  | Except.ok iPtrIsNull =>
    if fPresent then
      let calls := [CreateCtxCall.callF iPtrIsNull]
      if env.hglrcReturn = 0 then
        (Except.error ⟨env.lastError⟩, calls)
      else
        (Except.ok env.hglrcReturn, calls)
    else
      (Except.error APP_ERR, [])

/-- C5: every non-empty key/value attribute list whose last key is not zero is
rejected by the pixel-format builder and the context-attribute builder with
the application-error sentinel before any OS call (the call trace is empty),
and empty lists are accepted and passed as null pointers. -/
theorem attrib_list_termination_invariant :
    (∀ (env : ChoosePFEnv) (fPresent : Bool) (ia : List (Int × Int))
        (fa : List (Nat × Nat)) (k v : Int),
      ia.getLast? = some (k, v) → k ≠ 0 →
      do_wgl_choose_pixel_format_arb env fPresent ia fa = (Except.error APP_ERR, [])) ∧
    (∀ (env : ChoosePFEnv) (fPresent : Bool) (ia : List (Int × Int))
        (fa : List (Nat × Nat)) (k v : Nat),
      (ia = [] ∨ ∃ v0, ia.getLast? = some (0, v0)) →
      fa.getLast? = some (k, v) → f32BitsEqZero k = false →
      do_wgl_choose_pixel_format_arb env fPresent ia fa = (Except.error APP_ERR, [])) ∧
    (∀ (env : CreateCtxEnv) (fPresent : Bool) (al : List (Int × Int)) (k v : Int),
      al.getLast? = some (k, v) → k ≠ 0 →
      do_wgl_create_context_attribs_arb env fPresent al = (Except.error APP_ERR, [])) ∧
    (∀ (env : ChoosePFEnv),
      (do_wgl_choose_pixel_format_arb env true [] []).2 = [ChoosePFCall.callF true true]) ∧
    (∀ (env : CreateCtxEnv),
      (do_wgl_create_context_attribs_arb env true []).2 = [CreateCtxCall.callF true]) := by
  refine ⟨?_, ?_, ?_, ?_, ?_⟩
  · intro env fPresent ia fa k v hlast hk
    unfold do_wgl_choose_pixel_format_arb
    rw [hlast]
    simp only [if_neg hk]
  · intro env fPresent ia fa k v hia hlast hk
    have hk' : ¬(f32BitsEqZero k = true) := by rw [hk]; exact Bool.false_ne_true
    unfold do_wgl_choose_pixel_format_arb
    rcases hia with h | ⟨v0, h⟩
    · subst h
      rw [hlast]
      simp only [List.getLast?_nil, if_neg hk']
    · rw [h, hlast]
      simp only [if_neg hk']
      simp
  · intro env fPresent al k v hlast hk
    unfold do_wgl_create_context_attribs_arb
    rw [hlast]
    simp only [if_neg hk]
  · intro env
    unfold do_wgl_choose_pixel_format_arb
    simp only [List.getLast?_nil]
    rw [if_pos (by trivial)]
    split <;> rfl
  · intro env
    unfold do_wgl_create_context_attribs_arb
    simp only [List.getLast?_nil]
    rw [if_pos (by trivial)]
    split <;> rfl

/-- Witness for C5 at concrete malformed lists (`[(8, 24)]` for the int and
context lists, `[(0x3F800000, 0)]`, i.e. key `1.0f32`, for the float list) and
a concrete environment. -/
theorem attrib_list_termination_invariant_witness :
    (([(8, 24)] : List (Int × Int)).getLast? = some (8, 24) ∧ (8 : Int) ≠ 0 ∧
      do_wgl_choose_pixel_format_arb ⟨1, 4, 1, 9⟩ true [(8, 24)] []
        = (Except.error APP_ERR, [])) ∧
    (([(0x3F800000, 0)] : List (Nat × Nat)).getLast? = some (0x3F800000, 0) ∧
      f32BitsEqZero 0x3F800000 = false ∧
      do_wgl_choose_pixel_format_arb ⟨1, 4, 1, 9⟩ true [] [(0x3F800000, 0)]
        = (Except.error APP_ERR, [])) ∧
    (do_wgl_create_context_attribs_arb ⟨0, 9⟩ true [(8, 24)]
        = (Except.error APP_ERR, [])) := by
  refine ⟨⟨by decide, by decide, ?_⟩, ⟨by decide, by decide, ?_⟩, ?_⟩
  · exact attrib_list_termination_invariant.1 ⟨1, 4, 1, 9⟩ true [(8, 24)] [] 8 24
      (by decide) (by decide)
  · exact attrib_list_termination_invariant.2.1 ⟨1, 4, 1, 9⟩ true [] [(0x3F800000, 0)]
      0x3F800000 0 (Or.inl rfl) (by decide) (by decide)
  · exact attrib_list_termination_invariant.2.2.1 ⟨0, 9⟩ true [(8, 24)] 8 24
      (by decide) (by decide)

/-! ## The extension-capable context negotiator `get_wgl_basics`
(`src/win32/mod.rs`, lines 454–571) -/

/-- Rust's `str::split(' ')` on a string modelled as its character list:
yields the (possibly empty) chunks between the space characters, so the empty
string yields one empty chunk and consecutive spaces yield empty chunks. -/
def splitOnSpace : List Char → List (List Char)
  | [] => [[]]
  | c :: rest =>
    if c = ' ' then [] :: splitOnSpace rest
    else
      match splitOnSpace rest with
      | t :: ts => (c :: t) :: ts
      | [] => [[c]]

/-- Splitting of the driver's extension string, as performed inside
`get_wgl_basics` (`src/win32/mod.rs`, lines 544–551):
`s.split(' ').filter(|s| !s.is_empty())` collected into a list of owned
strings.  Strings are modelled as character lists. -/
def wglExtensionsFromString (s : List Char) : List (List Char) :=
  (splitOnSpace s).filter (fun t => !t.isEmpty)

/-- Outcomes of the OS and driver calls `get_wgl_basics` makes, in program
order.  Handles are modelled as `Nat` (`0` would be a null handle; the
wrappers already turn null handles into errors, so each `ok`/`some` carries
the handle).  `extensionStringResult` is the result of
`wgl_get_extension_string_arb`; the three `getProc` fields are the results of
the three `wgl_get_proc_address` calls. -/
structure WglEnv where
  registerClassResult : Except Win32Error Nat
  createWindowResult : Except Win32Error Nat
  getDCResult : Option Nat
  choosePixelFormatResult : Except Win32Error Int
  setPixelFormatResult : Except Win32Error Unit
  createContextResult : Except Win32Error Nat
  makeCurrentResult : Except Win32Error Unit
  extensionStringResult : Except Win32Error (List Char)
  getProcChoosePixelFormat : Except Win32Error Nat
  getProcCreateContextAttribs : Except Win32Error Nat
  getProcSwapInterval : Except Win32Error Nat
  unbindResult : Except Win32Error Unit

/-- Resource acquisition and release events performed by `get_wgl_basics`:
registering/unregistering the throwaway window class, creating/destroying the
throwaway window, getting/releasing its device context, and
creating/deleting the legacy GL context. -/
inductive ResEvent
  | registerClass (atom : Nat)
  | unregisterClass (atom : Nat)
  | createWindow (hwnd : Nat)
  | destroyWindow (hwnd : Nat)
  | getDC (hwnd hdc : Nat)
  | releaseDC (hwnd hdc : Nat)
  | createContext (hglrc : Nat)
  | deleteContext (hglrc : Nat)
deriving DecidableEq

/-- Embeds `get_wgl_basics` (`src/win32/mod.rs`, lines 454–571) as a function
of the outcomes of its OS calls, paired with the trace of resource events.
The scope guards `OnDropUnregisterClassW`, `OnDropDestroyWindow`,
`OnDropReleaseDC` and `OnDropDeleteContext` release their resources when
dropped; Rust drops local variables in reverse declaration order on every
exit path (early `?` returns and the successful return alike), which is what
the release suffix of each trace records.  The extension list is obtained
with `.map(split-and-filter).unwrap_or_default()`, so a failed extension
string query yields the empty list rather than an error. -/
def get_wgl_basics (env : WglEnv) :
    Except Win32Error (List (List Char) × Nat × Nat × Nat) × List ResEvent :=
  match env.registerClassResult with
  | Except.error e => (Except.error e, [])
  | Except.ok atom =>
    match env.createWindowResult with
    | Except.error e =>
        (Except.error e,
         [ResEvent.registerClass atom,
          ResEvent.unregisterClass atom])
    | Except.ok hwnd =>
      match env.getDCResult with
      | none =>
          (Except.error APP_ERR,
           [ResEvent.registerClass atom, ResEvent.createWindow hwnd,
            ResEvent.destroyWindow hwnd, ResEvent.unregisterClass atom])
      | some hdc =>
        match env.choosePixelFormatResult with
        | Except.error e =>
            (Except.error e,
             [ResEvent.registerClass atom, ResEvent.createWindow hwnd,
              ResEvent.getDC hwnd hdc,
              ResEvent.releaseDC hwnd hdc, ResEvent.destroyWindow hwnd,
              ResEvent.unregisterClass atom])
        | Except.ok _pf_index =>
          match env.setPixelFormatResult with
          | Except.error e =>
              (Except.error e,
               [ResEvent.registerClass atom, ResEvent.createWindow hwnd,
                ResEvent.getDC hwnd hdc,
                ResEvent.releaseDC hwnd hdc, ResEvent.destroyWindow hwnd,
                ResEvent.unregisterClass atom])
          | Except.ok _ =>
            match env.createContextResult with
            | Except.error e =>
                (Except.error e,
                 [ResEvent.registerClass atom, ResEvent.createWindow hwnd,
                  ResEvent.getDC hwnd hdc,
                  ResEvent.releaseDC hwnd hdc, ResEvent.destroyWindow hwnd,
                  ResEvent.unregisterClass atom])
            | Except.ok hglrc =>
              match env.makeCurrentResult with
              | Except.error e =>
                  (Except.error e,
                   [ResEvent.registerClass atom, ResEvent.createWindow hwnd,
                    ResEvent.getDC hwnd hdc, ResEvent.createContext hglrc,
                    ResEvent.deleteContext hglrc, ResEvent.releaseDC hwnd hdc,
                    ResEvent.destroyWindow hwnd, ResEvent.unregisterClass atom])
              | Except.ok _ =>
                let wgl_extensions : List (List Char) :=
                  match env.extensionStringResult with
                  | Except.ok s => wglExtensionsFromString s
                  | Except.error _ => []
                match env.getProcChoosePixelFormat with
                | Except.error e =>
                    (Except.error e,
                     [ResEvent.registerClass atom, ResEvent.createWindow hwnd,
                      ResEvent.getDC hwnd hdc, ResEvent.createContext hglrc,
                      ResEvent.deleteContext hglrc, ResEvent.releaseDC hwnd hdc,
                      ResEvent.destroyWindow hwnd, ResEvent.unregisterClass atom])
                | Except.ok choose_pixel_format =>
                  match env.getProcCreateContextAttribs with
                  | Except.error e =>
                      (Except.error e,
                       [ResEvent.registerClass atom, ResEvent.createWindow hwnd,
                        ResEvent.getDC hwnd hdc, ResEvent.createContext hglrc,
                        ResEvent.deleteContext hglrc, ResEvent.releaseDC hwnd hdc,
                        ResEvent.destroyWindow hwnd, ResEvent.unregisterClass atom])
                  | Except.ok create_context_attribs =>
                    match env.getProcSwapInterval with
                    | Except.error e =>
                        (Except.error e,
                         [ResEvent.registerClass atom, ResEvent.createWindow hwnd,
                          ResEvent.getDC hwnd hdc, ResEvent.createContext hglrc,
                          ResEvent.deleteContext hglrc, ResEvent.releaseDC hwnd hdc,
                          ResEvent.destroyWindow hwnd, ResEvent.unregisterClass atom])
                    | Except.ok swap_interval =>
                      match env.unbindResult with
                      | Except.error e =>
                          (Except.error e,
                           [ResEvent.registerClass atom, ResEvent.createWindow hwnd,
                            ResEvent.getDC hwnd hdc, ResEvent.createContext hglrc,
                            ResEvent.deleteContext hglrc, ResEvent.releaseDC hwnd hdc,
                            ResEvent.destroyWindow hwnd, ResEvent.unregisterClass atom])
                      | Except.ok _ =>
                          (Except.ok (wgl_extensions, choose_pixel_format,
                                      create_context_attribs, swap_interval),
                           [ResEvent.registerClass atom, ResEvent.createWindow hwnd,
                            ResEvent.getDC hwnd hdc, ResEvent.createContext hglrc,
                            ResEvent.deleteContext hglrc, ResEvent.releaseDC hwnd hdc,
                            ResEvent.destroyWindow hwnd, ResEvent.unregisterClass atom])

/-- Selects the acquisition events of a trace. -/
def acquireEvents : List ResEvent → List ResEvent :=
  List.filter fun e =>
    match e with
    | ResEvent.registerClass _ => true
    | ResEvent.createWindow _ => true
    | ResEvent.getDC _ _ => true
    | ResEvent.createContext _ => true
    | _ => false

/-- Selects the release events of a trace. -/
def releaseEvents : List ResEvent → List ResEvent :=
  List.filter fun e =>
    match e with
    | ResEvent.unregisterClass _ => true
    | ResEvent.destroyWindow _ => true
    | ResEvent.releaseDC _ _ => true
    | ResEvent.deleteContext _ => true
    | _ => false

/-- The release event that reclaims what an acquisition event acquired. -/
def matchingRelease : ResEvent → ResEvent
  | ResEvent.registerClass a => ResEvent.unregisterClass a
  | ResEvent.createWindow h => ResEvent.destroyWindow h
  | ResEvent.getDC h d => ResEvent.releaseDC h d
  | ResEvent.createContext c => ResEvent.deleteContext c
  | e => e

/-- C3: on every exit path of `get_wgl_basics` — every early error return and
the successful return alike — the release events of the trace are exactly the
matching releases of the acquisition events performed so far, in reverse
acquisition order: each acquired resource (window class, throwaway window,
device context, legacy GL context) is released exactly once, and a resource
is never released without having been acquired. -/
theorem get_wgl_basics_releases_in_reverse_order (env : WglEnv) :
    releaseEvents (get_wgl_basics env).2
      = (acquireEvents (get_wgl_basics env).2).reverse.map matchingRelease := by
  obtain ⟨rc, cw, dc, cpf, spf, cc, mc, ext, p1, p2, p3, ub⟩ := env
  rcases rc with e | atom
  · rfl
  rcases cw with e | hwnd
  · rfl
  rcases dc with _ | hdc
  · rfl
  rcases cpf with e | pfIndex
  · rfl
  rcases spf with e | u
  · rfl
  rcases cc with e | hglrc
  · rfl
  rcases mc with e | u2
  · rfl
  rcases p1 with e | a1
  · rfl
  rcases p2 with e | a2
  · rfl
  rcases p3 with e | a3
  · rfl
  rcases ub with e | u3 <;> rfl

/-- C8: an `Ok` result of `get_wgl_basics` carries exactly the extension list
obtained by splitting the driver's capability string on space characters and
discarding empty tokens — a pure function of the string (a failed query
yields the empty list via `unwrap_or_default`); in particular an empty or
all-spaces string yields the empty extension set. -/
theorem get_wgl_basics_extensions_pure (env : WglEnv) :
    (∀ out, (get_wgl_basics env).1 = Except.ok out →
      out.1 = (match env.extensionStringResult with
               | Except.ok s => wglExtensionsFromString s
               | Except.error _ => [])) ∧
    wglExtensionsFromString [] = [] ∧
    wglExtensionsFromString [' ', ' ', ' '] = [] := by
  refine ⟨?_, rfl, rfl⟩
  obtain ⟨rc, cw, dc, cpf, spf, cc, mc, ext, p1, p2, p3, ub⟩ := env
  intro out h
  rcases rc with e | atom
  · exact absurd h (by simp [get_wgl_basics])
  rcases cw with e | hwnd
  · exact absurd h (by simp [get_wgl_basics])
  rcases dc with _ | hdc
  · exact absurd h (by simp [get_wgl_basics])
  rcases cpf with e | pfIndex
  · exact absurd h (by simp [get_wgl_basics])
  rcases spf with e | u
  · exact absurd h (by simp [get_wgl_basics])
  rcases cc with e | hglrc
  · exact absurd h (by simp [get_wgl_basics])
  rcases mc with e | u2
  · exact absurd h (by simp [get_wgl_basics])
  rcases p1 with e | a1
  · exact absurd h (by simp [get_wgl_basics])
  rcases p2 with e | a2
  · exact absurd h (by simp [get_wgl_basics])
  rcases p3 with e | a3
  · exact absurd h (by simp [get_wgl_basics])
  rcases ub with e | u3
  · exact absurd h (by simp [get_wgl_basics])
  · simp only [get_wgl_basics] at h
    cases h
    rfl

/-- A fully successful environment for `get_wgl_basics`, with the driver
advertising the sRGB and multisample extensions. -/
def wglEnvAllOk : WglEnv :=
  ⟨Except.ok 1, Except.ok 2, some 3, Except.ok 4, Except.ok (), Except.ok 5,
   Except.ok (), Except.ok "WGL_EXT_framebuffer_sRGB WGL_ARB_multisample".toList,
   Except.ok 21, Except.ok 22, Except.ok 23, Except.ok ()⟩

/-- Witness for C8: on `wglEnvAllOk`, `get_wgl_basics` succeeds and the
extension list is the split of the advertised capability string. -/
theorem get_wgl_basics_extensions_pure_witness :
    (get_wgl_basics wglEnvAllOk).1
      = Except.ok (["WGL_EXT_framebuffer_sRGB".toList, "WGL_ARB_multisample".toList],
                   21, 22, 23) ∧
    (["WGL_EXT_framebuffer_sRGB".toList, "WGL_ARB_multisample".toList] : List (List Char))
      = (match wglEnvAllOk.extensionStringResult with
         | Except.ok s => wglExtensionsFromString s
         | Except.error _ => []) :=
  ⟨by decide,
   (get_wgl_basics_extensions_pure wglEnvAllOk).1
     (["WGL_EXT_framebuffer_sRGB".toList, "WGL_ARB_multisample".toList], 21, 22, 23)
     (by decide)⟩

/-! ## The window procedure and message loop (`src/main.rs`) -/

/-- Message constant `WM_CREATE` (`src/main.rs`, line 657). -/
def WM_CREATE : Nat := 0x0001
/-- Message constant `WM_DESTROY` (`src/main.rs`, line 659). -/
def WM_DESTROY : Nat := 0x0002
/-- Message constant `WM_PAINT` (`src/main.rs`, line 663). -/
def WM_PAINT : Nat := 0x000F
/-- Message constant `WM_CLOSE` (`src/main.rs`, line 654). -/
def WM_CLOSE : Nat := 0x0010
/-- Message constant `WM_NCCREATE` (`src/main.rs`, line 661). -/
def WM_NCCREATE : Nat := 0x0081
/-- Index constant `GWLP_USERDATA` (`src/main.rs`, line 631). -/
def GWLP_USERDATA : Int := -21

/-- Outcomes of the reads and OS calls `window_procedure` makes: the
`lpCreateParams` field read through a (non-null) `CREATESTRUCTW` pointer, the
`i32` read through the user-data pointer in `WM_PAINT`, and the values
returned by `BeginPaint`, `FillRect` and `DefWindowProcW`. -/
structure WndProcEnv where
  lpCreateParamsAt : Nat → Nat
  derefAt : Nat → Int
  beginPaintHdc : Nat
  fillRectReturn : Int
  defWindowProcReturn : Int

/-- Observable actions of `window_procedure`: writes and reads of the window's
user-data slot, the write-back through the user-data pointer in `WM_PAINT`,
paint calls, `DestroyWindow`, the drop of the `Box` recovered by
`Box::from_raw` (reclaiming the user-data allocation), `PostQuitMessage`, and
delegation to `DefWindowProcW`. -/
inductive WndEvent
  | setWindowLong (slot : Int) (value : Nat)
  | getWindowLong (slot : Int)
  | writeThrough (p : Nat) (newValue : Int)
  | beginPaintCall
  | fillRectCall
  | endPaintCall
  | destroyWindowCall (hwnd : Nat)
  | reclaimBox (p : Nat)
  | postQuitMessage (code : Int)
  | defWindowProcCall
deriving DecidableEq

/-- Embeds `window_procedure` (`src/main.rs`, lines 739–810).  `userdata` is
the window's current `GWLP_USERDATA` slot value (`0` for a null pointer);
`lparam` is the message parameter (for `WM_NCCREATE`, the `CREATESTRUCTW`
pointer, `0` when null).  Returns the `LRESULT`, the new user-data slot value
and the trace of observable actions:

* `WM_NCCREATE`: a null `createstruct` returns `0` without touching the slot;
  otherwise `lpCreateParams` is stored via `SetWindowLongPtrW` and `1` is
  returned;
* `WM_CREATE`: logs only, falls through to return `0`;
* `WM_PAINT`: reads the slot, dereferences and increments through the pointer,
  then `BeginPaint` / `FillRect` / `EndPaint`;
* `WM_CLOSE`: calls `DestroyWindow`;
* `WM_DESTROY`: reads the slot, reconstructs the `Box` with `Box::from_raw`
  (dropping it immediately — the reclamation), then `PostQuitMessage(0)`;
* anything else: delegates to `DefWindowProcW` and returns its result. -/
def window_procedure (env : WndProcEnv) (hwnd : Nat) (msg : Nat)
    (_wparam : Nat) (lparam : Nat) (userdata : Nat) :
    Int × Nat × List WndEvent :=
  if msg = WM_NCCREATE then
    if lparam = 0 then
      (0, userdata, [])
    else
      let boxed_i32_ptr := env.lpCreateParamsAt lparam
      (1, boxed_i32_ptr, [WndEvent.setWindowLong GWLP_USERDATA boxed_i32_ptr])
  else if msg = WM_CREATE then
    (0, userdata, [])
  else if msg = WM_PAINT then
    (0, userdata,
     [WndEvent.getWindowLong GWLP_USERDATA,
      WndEvent.writeThrough userdata (env.derefAt userdata + 1),
      WndEvent.beginPaintCall, WndEvent.fillRectCall, WndEvent.endPaintCall])
  else if msg = WM_CLOSE then
    (0, userdata, [WndEvent.destroyWindowCall hwnd])
  else if msg = WM_DESTROY then
    (0, userdata,
     [WndEvent.getWindowLong GWLP_USERDATA,
      WndEvent.reclaimBox userdata,
      WndEvent.postQuitMessage 0])
  else
    (env.defWindowProcReturn, userdata, [WndEvent.defWindowProcCall])

/-- C6: the `WM_NCCREATE` handler refuses construction (returns `0`) without
touching the user-data slot when the creation parameter pointer is null, and
otherwise stores the creation parameter into the user-data slot and returns
success (`1`). -/
theorem window_procedure_nccreate (env : WndProcEnv) (hwnd w ud : Nat) :
    window_procedure env hwnd WM_NCCREATE w 0 ud = (0, ud, []) ∧
    ∀ l, l ≠ 0 →
      window_procedure env hwnd WM_NCCREATE w l ud
        = (1, env.lpCreateParamsAt l,
           [WndEvent.setWindowLong GWLP_USERDATA (env.lpCreateParamsAt l)]) := by
  constructor
  · rfl
  · intro l hl
    unfold window_procedure
    rw [if_pos rfl, if_neg hl]

/-- Witness for C6 at a concrete environment, creation-parameter pointer and
slot value. -/
theorem window_procedure_nccreate_witness :
    (window_procedure ⟨fun p => p + 40, fun _ => 0, 3, 1, 7⟩ 1 WM_NCCREATE 0 0 9
        = (0, 9, []) ∧
      ∀ l, l ≠ 0 →
        window_procedure ⟨fun p => p + 40, fun _ => 0, 3, 1, 7⟩ 1 WM_NCCREATE 0 l 9
          = (1, l + 40, [WndEvent.setWindowLong GWLP_USERDATA (l + 40)])) ∧
    (2 : Nat) ≠ 0 ∧
    window_procedure ⟨fun p => p + 40, fun _ => 0, 3, 1, 7⟩ 1 WM_NCCREATE 0 2 9
      = (1, 42, [WndEvent.setWindowLong GWLP_USERDATA 42]) :=
  ⟨window_procedure_nccreate _ 1 0 9, by decide,
   (window_procedure_nccreate ⟨fun p => p + 40, fun _ => 0, 3, 1, 7⟩ 1 0 9).2 2 (by decide)⟩

/-- C2 counterexample: in the `WM_DESTROY` handler, even when the read-back
user-data pointer is null (`0`), the handler still reclaims it with
`Box::from_raw` — the reclamation is not skipped, contradicting the claim
that a null pointer goes straight to posting quit with no reclamation. -/
theorem window_procedure_destroy_null_still_reclaims :
    (window_procedure ⟨fun _ => 0, fun _ => 0, 0, 0, 0⟩ 1 WM_DESTROY 0 0 0).2.2
      = [WndEvent.getWindowLong GWLP_USERDATA, WndEvent.reclaimBox 0,
         WndEvent.postQuitMessage 0] ∧
    WndEvent.reclaimBox 0
      ∈ (window_procedure ⟨fun _ => 0, fun _ => 0, 0, 0, 0⟩ 1 WM_DESTROY 0 0 0).2.2 := by
  decide

/-- C2 (amended): the `WM_DESTROY` handler reads back the user-data pointer
and reclaims the user-data block exactly once per destroy message —
unconditionally, whether or not the read-back pointer is null — and then
posts the quit message with code `0`. -/
theorem window_procedure_destroy_reclaims_unconditionally
    (env : WndProcEnv) (hwnd w l ud : Nat) :
    window_procedure env hwnd WM_DESTROY w l ud
      = (0, ud,
         [WndEvent.getWindowLong GWLP_USERDATA, WndEvent.reclaimBox ud,
          WndEvent.postQuitMessage 0]) ∧
    ((window_procedure env hwnd WM_DESTROY w l ud).2.2).count (WndEvent.reclaimBox ud)
      = 1 := by
  constructor
  · rfl
  · show List.count _ [WndEvent.getWindowLong GWLP_USERDATA, WndEvent.reclaimBox ud,
      WndEvent.postQuitMessage 0] = 1
    simp [List.count_cons]

/-- One outcome of `GetMessageW` as observed by the message loop in `main`
(`src/main.rs`, lines 714–730): return value `0` (the quit message, with the
quit payload in `msg.wParam`), return value `-1` (a retrieval failure, with
the thread's last-error code), or any other return value (an ordinary message
to translate and dispatch). -/
inductive GetMsgResult
  | quit (wParam : Nat)
  | failure (lastError : Nat)
  | message (msg : Nat)
deriving DecidableEq

/-- Decides whether a retrieval outcome is an ordinary (non-quit, non-error)
message. -/
def GetMsgResult.isOrdinary : GetMsgResult → Bool
  | GetMsgResult.message _ => true
  | _ => false

/-- The observable fate of the process as driven by the message loop. -/
inductive LoopOutcome
  | exited (status : Nat)
  | panicked (lastError : Nat)
  | pending
deriving DecidableEq

/-- Embeds the message loop of `main` (`src/main.rs`, lines 714–730), run
against a finite script of `GetMessageW` outcomes.  A `0` return breaks the
loop, after which `main` returns and the process exits with status `0` (the
quit message's `wParam` payload is never read); a `-1` return panics with the
last-error code; any other return is translated, dispatched, and the loop
continues.  An exhausted script leaves the loop still running (`pending`). -/
def main_message_loop : List GetMsgResult → LoopOutcome
  | [] => LoopOutcome.pending
  | GetMsgResult.quit _wParam :: _rest => LoopOutcome.exited 0
  | GetMsgResult.failure e :: _rest => LoopOutcome.panicked e
  | GetMsgResult.message _m :: rest => main_message_loop rest

/-- C1 counterexample: a quit message with payload `7` terminates the loop,
but the process exit status is `0`, not `7` — the loop never reads the quit
payload, so the claimed "exit status equals N" fails for `N = 7`. -/
theorem main_message_loop_ignores_quit_payload :
    main_message_loop [GetMsgResult.message 42, GetMsgResult.quit 7]
      = LoopOutcome.exited 0 ∧
    LoopOutcome.exited 0 ≠ LoopOutcome.exited 7 := by
  decide

/-- C1 (amended): the quit message terminates the loop and the process exits
with status `0` regardless of the quit payload, and no ordinary message
terminates the loop — a script of ordinary messages leaves the loop running. -/
theorem main_message_loop_quit_only_termination :
    (∀ (pre : List GetMsgResult) (N : Nat) (rest : List GetMsgResult),
      (∀ x ∈ pre, x.isOrdinary = true) →
      main_message_loop (pre ++ GetMsgResult.quit N :: rest) = LoopOutcome.exited 0) ∧
    (∀ (msgs : List GetMsgResult),
      (∀ x ∈ msgs, x.isOrdinary = true) →
      main_message_loop msgs = LoopOutcome.pending) := by
  constructor
  · intro pre N rest hpre
    induction pre with
    | nil => rfl
    | cons x xs ih =>
      have hx := hpre x (List.mem_cons_self x xs)
      match x with
      | GetMsgResult.quit _ => cases hx
      | GetMsgResult.failure _ => cases hx
      | GetMsgResult.message m =>
        exact ih fun y hy => hpre y (List.mem_cons_of_mem _ hy)
  · intro msgs hmsgs
    induction msgs with
    | nil => rfl
    | cons x xs ih =>
      have hx := hmsgs x (List.mem_cons_self x xs)
      match x with
      | GetMsgResult.quit _ => cases hx
      | GetMsgResult.failure _ => cases hx
      | GetMsgResult.message m =>
        exact ih fun y hy => hmsgs y (List.mem_cons_of_mem _ hy)

/-- Witness for C1's amended theorem at concrete scripts. -/
theorem main_message_loop_quit_only_termination_witness :
    (∀ x ∈ [GetMsgResult.message 3, GetMsgResult.message 4], x.isOrdinary = true) ∧
    main_message_loop
        ([GetMsgResult.message 3, GetMsgResult.message 4] ++
          GetMsgResult.quit 9 :: [GetMsgResult.message 5])
      = LoopOutcome.exited 0 ∧
    main_message_loop [GetMsgResult.message 3, GetMsgResult.message 4]
      = LoopOutcome.pending :=
  ⟨by decide,
   main_message_loop_quit_only_termination.1
     [GetMsgResult.message 3, GetMsgResult.message 4] 9 [GetMsgResult.message 5]
     (by decide),
   main_message_loop_quit_only_termination.2
     [GetMsgResult.message 3, GetMsgResult.message 4] (by decide)⟩

/-! ## Window user-data accessors (`src/win32/mod.rs`, lines 430–446 and 700–716) -/

/-- Outcome of one `GetWindowLongPtrW` / `SetWindowLongPtrW` call: the
returned `LONG_PTR`, and whether (and to what) the call sets the thread's
last-error value.  A successful call that merely returns `0` because the slot
holds `0` leaves the last-error value untouched (`none`). -/
structure LongPtrCallEnv where
  returnValue : Int
  setsLastError : Option Nat

/-- Embeds `get_window_userdata` (`src/win32/mod.rs`, lines 430–446).
`lastError0` is the thread's stale last-error value on entry; the function
first clears it with `set_last_error(Win32Error(0))`, then calls
`GetWindowLongPtrW`, and treats a `0` return as an error only if the
last-error value afterwards is non-zero.  Returns the result and the final
last-error value. -/
def get_window_userdata (env : LongPtrCallEnv) (_lastError0 : Nat) :
    Except Win32Error Int × Nat :=
  -- set_last_error(Win32Error(0)): the stale `lastError0` is overwritten.
  let lastError1 : Nat := 0
  let lastError2 : Nat :=
    match env.setsLastError with
    | some e => e
    | none => lastError1
  let out := env.returnValue
  if out = 0 then
    if lastError2 ≠ 0 then
      (Except.error ⟨lastError2⟩, lastError2)
    else
      (Except.ok out, lastError2)
  else
    (Except.ok out, lastError2)

/-- Embeds `set_window_userdata` (`src/win32/mod.rs`, lines 700–716): same
structure as `get_window_userdata`, around `SetWindowLongPtrW` (whose return
value is the previous slot value); `_ptr` is the new pointer stored. -/
def set_window_userdata (env : LongPtrCallEnv) (_lastError0 : Nat) (_ptr : Nat) :
    Except Win32Error Int × Nat :=
  let lastError1 : Nat := 0
  let lastError2 : Nat :=
    match env.setsLastError with
    | some e => e
    | none => lastError1
  let out := env.returnValue
  if out = 0 then
    if lastError2 ≠ 0 then
      (Except.error ⟨lastError2⟩, lastError2)
    else
      (Except.ok out, lastError2)
  else
    (Except.ok out, lastError2)

/-- C10: `get_window_userdata` and `set_window_userdata` clear the thread's
last-error value before calling the OS — so whatever stale value it held, a
call that returns `0` without setting an error yields `Ok` with a null
pointer, never an `Err`; and a `0` return is an error exactly when the
last-error value after the call is non-zero. -/
theorem window_userdata_zero_slot_is_ok (env : LongPtrCallEnv) (lastError0 : Nat) :
    (env.returnValue = 0 → env.setsLastError = none →
      get_window_userdata env lastError0 = (Except.ok 0, 0) ∧
      ∀ p, set_window_userdata env lastError0 p = (Except.ok 0, 0)) ∧
    (∀ e, (get_window_userdata env lastError0).1 = Except.error e →
      env.returnValue = 0 ∧ e.code ≠ 0 ∧ env.setsLastError = some e.code) := by
  constructor
  · intro hret hnone
    have hg : get_window_userdata env lastError0 = (Except.ok 0, 0) := by
      unfold get_window_userdata
      rw [hnone, hret]
      simp
    refine ⟨hg, fun p => ?_⟩
    unfold set_window_userdata
    rw [hnone, hret]
    simp
  · intro e he
    rcases henv : env.setsLastError with _ | le
    · simp only [get_window_userdata, henv] at he
      split at he <;> simp at he
    · simp only [get_window_userdata, henv] at he
      split at he <;> rename_i hout
      · split at he <;> rename_i hle
        · cases he
          exact ⟨hout, hle, rfl⟩
        · cases he
      · cases he

/-- Witness for C10: a window whose user-data slot genuinely holds zero (the
call returns `0` and sets no error) yields `Ok(null)` even though the thread
entered with the stale last-error value `23`. -/
theorem window_userdata_zero_slot_is_ok_witness :
    ((⟨0, none⟩ : LongPtrCallEnv).returnValue = 0 ∧
      (⟨0, none⟩ : LongPtrCallEnv).setsLastError = none) ∧
    get_window_userdata ⟨0, none⟩ 23 = (Except.ok 0, 0) ∧
    ∀ p, set_window_userdata ⟨0, none⟩ 23 p = (Except.ok 0, 0) :=
  ⟨⟨by decide, by decide⟩,
   (window_userdata_zero_slot_is_ok ⟨0, none⟩ 23).1 (by decide) (by decide)⟩
